import Mathlib

/-!
Verification of the credential issuance subsystem of the Back-End repository:
the `/register` workflow (src/routes/auth/register.ts), and the `/login` and
`/change_password` workflows (src/routes/auth/signin.ts), over a shallow
embedding of the route handlers and the Account / Account_Credential tables.

Request body fields are JS values that may be absent: they are modelled as
`Option String`.  The database is a pair of tables plus the SERIAL counter for
`Account_ID`.  Each handler is embedded as a pure function from the request
body and the database state to the final database state together with the
ordered trace of its externally visible events (queries applied at the store
and responses written to the client), in the order the JavaScript code
executes them: synchronous code first, promise continuations afterwards.
Express sends at most one response per request, so the client observes the
first `send` event of the trace.

`generateHash` (credentialingUtils) is an arbitrary deterministic function of
password and salt; the handlers are parameterised by it.  The random salt
drawn by `generateSalt(32)` during registration enters as a parameter as well.
-/

namespace BackEnd

/-- One row of the `Account` table (data/init.sql): SERIAL id, names,
unique username / email / phone, and the role value inserted by the register
route (taken verbatim from the request body). -/
structure Account where
  account_id : Nat
  firstname : String
  lastname : String
  username : String
  email : String
  phone : String
  account_role : String
deriving DecidableEq, Repr

/-- One row of the `Account_Credential` table: the owning account id, the
salted hash and the salt. -/
structure Credential where
  account_id : Nat
  salted_hash : String
  salt : String
deriving DecidableEq, Repr

/-- The database state: both tables plus the next value of the
`Account_ID` SERIAL sequence. -/
structure DB where
  accounts : List Account
  credentials : List Credential
  nextId : Nat
deriving DecidableEq, Repr

/-- The signed claims payload of a `jwt.sign` call.  The register route signs
`\x7brole, id\x7d`; the signin routes sign `\x7bname, role, id\x7d`. -/
structure Token where
  name : Option String
  role : Option String
  id : Option Nat
deriving DecidableEq, Repr

/-- The `user` object of the register route's 201 body: every field is read
directly from `request.body`, including `id`. -/
structure UserObj where
  id : Option String
  name : Option String
  email : Option String
  role : Option String
deriving DecidableEq, Repr

/-- A response body: either a `\x7bmessage\x7d` object, the signin-style
`\x7baccessToken, id\x7d` object, or the register-style
`\x7baccessToken, user\x7d` object. -/
inductive RespBody where
  | message (msg : String)
  | auth (accessToken : Token) (id : Nat)
  | registered (accessToken : Token) (user : UserObj)
deriving DecidableEq, Repr

/-- An externally visible event of a handler run: a SQL statement applied at
the store, or a response written to the client. -/
inductive Ev where
  | insertAccount (id : Nat)
  | insertCredential (id : Nat) (salted_hash : String) (salt : String)
  | deleteAccount (id : Nat)
  | updateCredential (id : Nat) (salted_hash : String)
  | send (status : Nat) (body : RespBody)
deriving DecidableEq, Repr

/-- The response the client observes: the first `send` event of a trace
(express discards any later send with an `ERR_HTTP_HEADERS_SENT` error). -/
def observed : List Ev → Option (Nat × RespBody)
  | [] => none
  | Ev.send st b :: _ => some (st, b)
  | _ :: evs => observed evs

/-- `true` when the event is a query applied at the store. -/
def Ev.isQuery : Ev → Bool
  | Ev.send _ _ => false
  | _ => true

/-! ### Validation utilities

`validationFunctions` (core/utilities/validationUtils) is imported but its
source file is not part of the repository snapshot; only its callers are. -/

/-- Modelled from the spec: `validationFunctions.isStringProvided`, whose
source (core/utilities/validationUtils.ts) is missing from the snapshot.
Spec §4.2: "first/last/username must be non-empty strings"; the register
route comments "In js, empty strings or null values evaluate to false".
A value is provided when it is present and non-empty. -/
def isStringProvided : Option String → Bool
  | none => false
  | some s => !(s == "")

/-- Modelled from the spec: `validationFunctions.isNumberProvided`, whose
source (core/utilities/validationUtils.ts) is missing from the snapshot.
Spec §4.2: "phone must be numeric-only and 10–15 digits", "role must parse
to an integer": a provided, non-empty, digits-only value. -/
def isNumberProvided : Option String → Bool
  | none => false
  | some s => !(s == "") && s.data.all Char.isDigit

/-- Modelled from the spec: JavaScript `parseInt` restricted to the
digits-only strings admitted by `isNumberProvided`, where it returns the
decimal value of the string. -/
def parseIntJs (s : String) : Nat :=
  s.data.foldl (fun n c => 10 * n + (c.toNat - Char.toNat (Char.ofNat 48))) 0

/-- The special-character class of the register route's `hasSpecialChar`
regular expression. -/
def specialChars : List Char :=
  ['!', '@', '#', '$', '%', Char.ofNat 94, '&', '*', '(', ')', ',', '.',
   '?', Char.ofNat 34, ':', Char.ofNat 123, Char.ofNat 125, '|', '<', '>']

/-- `hasNumber.test` of the register route: at least one digit. -/
def hasNumber (s : String) : Bool := s.data.any Char.isDigit

/-- `hasSpecialChar.test` of the register route: at least one character of
the special-character class. -/
def hasSpecialChar (s : String) : Bool := s.data.any (fun c => specialChars.contains c)

/-- `isValidPassword` of the register route: provided, longer than 7, with a
digit and a special character. -/
def isValidPassword (password : Option String) : Bool :=
  isStringProvided password &&
  decide ((password.getD "").length > 7) &&
  hasNumber (password.getD "") &&
  hasSpecialChar (password.getD "")

/-- `isValidPhone` of the register route: numeric and 10 to 15 digits long. -/
def isValidPhone (phone : Option String) : Bool :=
  isNumberProvided phone &&
  decide ((phone.getD "").length ≥ 10) &&
  decide ((phone.getD "").length ≤ 15)

/-- `isValidRole` of the register route: numeric with `parseInt` value
between 1 and 5. -/
def isValidRole (priority : Option String) : Bool :=
  isNumberProvided priority &&
  decide (parseIntJs (priority.getD "") ≥ 1) &&
  decide (parseIntJs (priority.getD "") ≤ 5)

/-- `isValidEmail` of the register route: provided and containing `@`. -/
def isValidEmail (email : Option String) : Bool :=
  isStringProvided email && (email.getD "").data.contains '@'

/-! ### Store operations -/

/-- The request body of `/register`.  All fields the route reads, including
the `id` field that the 201 success body copies into `user.id`. -/
structure RegisterBody where
  firstname : Option String
  lastname : Option String
  username : Option String
  email : Option String
  phone : Option String
  password : Option String
  role : Option String
  id : Option String
deriving DecidableEq, Repr

/-- `INSERT INTO Account(...) RETURNING account_id`, when no uniqueness
constraint is violated: appends the row built from the request body and
advances the SERIAL sequence. -/
def DB.insertAccount (db : DB) (b : RegisterBody) : DB :=
  { accounts := db.accounts ++
      [{ account_id := db.nextId
         firstname := b.firstname.getD ""
         lastname := b.lastname.getD ""
         username := b.username.getD ""
         email := b.email.getD ""
         phone := b.phone.getD ""
         account_role := b.role.getD "" }]
    credentials := db.credentials
    nextId := db.nextId + 1 }

/-- `INSERT INTO Account_Credential(account_id, salted_hash, salt)`. -/
def DB.insertCredential (db : DB) (id : Nat) (sh salt : String) : DB :=
  { db with credentials := db.credentials ++
      [{ account_id := id, salted_hash := sh, salt := salt }] }

/-- `DELETE FROM Account WHERE account_ID = $1`. -/
def DB.deleteAccount (db : DB) (id : Nat) : DB :=
  { db with accounts := db.accounts.filter (fun a => !(a.account_id == id)) }

/-- `UPDATE Account_Credential SET salted_hash = $1 WHERE account_id = $2`. -/
def DB.updateCredential (db : DB) (id : Nat) (sh : String) : DB :=
  { db with credentials := db.credentials.map (fun c =>
      if c.account_id == id then { c with salted_hash := sh } else c) }

/-- One row of the signin routes' join query: `SELECT salted_hash, salt,
Account_Credential.account_id, account.email, account.firstname,
account.lastname, account.phone, account.username, account.account_role`. -/
structure JoinRow where
  salted_hash : String
  salt : String
  account_id : Nat
  email : String
  firstname : String
  lastname : String
  phone : String
  username : String
  account_role : String
deriving DecidableEq, Repr

/-- The projection list of the signin routes' SELECT, applied to one joined
credential/account pair. -/
def joinRow (c : Credential) (a : Account) : JoinRow :=
  { salted_hash := c.salted_hash
    salt := c.salt
    account_id := c.account_id
    email := a.email
    firstname := a.firstname
    lastname := a.lastname
    phone := a.phone
    username := a.username
    account_role := a.account_role }

/-- `FROM Account_Credential INNER JOIN Account ON
Account_Credential.account_id = Account.account_id WHERE Account.email = $1`. -/
def DB.joinRows (db : DB) (email : String) : List JoinRow :=
  db.credentials.flatMap (fun c =>
    (db.accounts.filter
        (fun a => a.account_id == c.account_id && a.email == email)).map
      (joinRow c))

/-! ### Response message constants -/

def emailMsg : String := "Invalid or missing email  - please refer to documentation"

def missingMsg : String := "Missing required information"

def phoneMsg : String := "Invalid or missing phone number  - please refer to documentation"

def passwordMsg : String := "Invalid or missing password  - please refer to documentation"

def roleMsg : String := "Invalid or missing role  - please refer to documentation"

def usernameExistsMsg : String := "Username exists"

def emailExistsMsg : String := "Email exists"

def serverErrorMsg : String := "server error - contact support"

def userNotFoundMsg : String := "User not found"

def mismatchMsg : String := "Credentials did not match"

def didMatchMsg : String := "Credentials did match, no new password was created"

/-- The body of the compensating-delete branch's 200 response:
`Deleted $\x7brequest.id\x7d from ID.` -/
def deletedMsg (id : Nat) : String := "Deleted " ++ toString id ++ " from ID."

/-- The body of the compensating-delete branch's 404 response:
`No $\x7brequest.id\x7d was found.` -/
def notFoundIdMsg (id : Nat) : String := "No " ++ toString id ++ " was found."

/-! ### The `/register` workflow (src/routes/auth/register.ts) -/

/-- The token signed on successful registration:
`jwt.sign(\x7brole: request.body.role, id: request.id\x7d, ...)`. -/
def registerToken (b : RegisterBody) (id : Nat) : Token :=
  { name := none, role := b.role, id := some id }

/-- The `user` object of the 201 body; note `id: request.body.id`. -/
def registerUser (b : RegisterBody) : UserObj :=
  { id := b.id, name := b.firstname, email := b.email, role := b.role }

/-- The conjunction of the five validation middleware checks of `/register`,
in chain order. -/
def registerValid (b : RegisterBody) : Bool :=
  isValidEmail b.email &&
  (isStringProvided b.firstname && isStringProvided b.lastname &&
    isStringProvided b.username) &&
  isValidPhone b.phone &&
  isValidPassword b.password &&
  isValidRole b.role

/-- The 400 message of the first failing validation middleware, in the order
the chain runs them. -/
def firstFailureMsg (b : RegisterBody) : String :=
  if !isValidEmail b.email then emailMsg
  else if !(isStringProvided b.firstname && isStringProvided b.lastname &&
      isStringProvided b.username) then missingMsg
  else if !isValidPhone b.phone then phoneMsg
  else if !isValidPassword b.password then passwordMsg
  else roleMsg

/-- The storage stage of `/register`: the `Account` insert middleware (its
success continuation stashing `request.id`, its catch branching on
`error.constraint`), followed by the `Account_Credential` insert middleware.
`gh` is `generateHash`, `saltv` the salt drawn by `generateSalt(32)`, and
`credFail` injects a failure of the `Account_Credential` insert
(spec §4.2: "if step (2) fails for any reason").

On a credential-insert failure the catch handler dispatches the compensating
`DELETE`, registers its continuation, and sends the 500 synchronously; the
continuation's send (200 when a row was deleted, 404 otherwise) runs on a
later microtask turn, hence after the 500 in the trace. -/
def registerStore (gh : String → String → String) (saltv : String)
    (credFail : Bool) (db : DB) (b : RegisterBody) : DB × List Ev :=
  if db.accounts.any (fun a => a.username == b.username.getD "") then
    (db, [Ev.send 400 (RespBody.message usernameExistsMsg)])
  else if db.accounts.any (fun a => a.email == b.email.getD "") then
    (db, [Ev.send 400 (RespBody.message emailExistsMsg)])
  else if db.accounts.any (fun a => a.phone == b.phone.getD "") then
    (db, [Ev.send 500 (RespBody.message serverErrorMsg)])
  else
    let id := db.nextId
    let db1 := db.insertAccount b
    if credFail then
      let deletedCount :=
        (db1.accounts.filter (fun a => a.account_id == id)).length
      (db1.deleteAccount id,
        [Ev.insertAccount id,
         Ev.deleteAccount id,
         Ev.send 500 (RespBody.message serverErrorMsg),
         if deletedCount > 0 then
           Ev.send 200 (RespBody.message (deletedMsg id))
         else
           Ev.send 404 (RespBody.message (notFoundIdMsg id))])
    else
      let sh := gh (b.password.getD "") saltv
      (db1.insertCredential id sh saltv,
        [Ev.insertAccount id,
         Ev.insertCredential id sh saltv,
         Ev.send 201 (RespBody.registered (registerToken b id) (registerUser b))])

/-- The `/register` handler chain: the five validation middlewares in order,
then the storage stage. -/
def registerRun (gh : String → String → String) (saltv : String)
    (credFail : Bool) (db : DB) (b : RegisterBody) : DB × List Ev :=
  if !isValidEmail b.email then
    (db, [Ev.send 400 (RespBody.message emailMsg)])
  else if !(isStringProvided b.firstname && isStringProvided b.lastname &&
      isStringProvided b.username) then
    (db, [Ev.send 400 (RespBody.message missingMsg)])
  else if !isValidPhone b.phone then
    (db, [Ev.send 400 (RespBody.message phoneMsg)])
  else if !isValidPassword b.password then
    (db, [Ev.send 400 (RespBody.message passwordMsg)])
  else if !isValidRole b.role then
    (db, [Ev.send 400 (RespBody.message roleMsg)])
  else
    registerStore gh saltv credFail db b

/-! ### The `/login` and `/change_password` workflows (src/routes/auth/signin.ts) -/

/-- The token signed by the signin routes:
`jwt.sign(\x7bname: firstname, role: account_role, id: account_id\x7d, ...)`. -/
def signinToken (r : JoinRow) : Token :=
  { name := some r.firstname, role := some r.account_role, id := some r.account_id }

/-- The `/login` handler chain.  Read-only: returns only the event trace. -/
def loginRun (gh : String → String → String) (db : DB)
    (email password : Option String) : List Ev :=
  if !(isValidEmail email && isValidPassword password) then
    [Ev.send 400 (RespBody.message missingMsg)]
  else
    match db.joinRows (email.getD "") with
    | [] => [Ev.send 404 (RespBody.message userNotFoundMsg)]
    | [r] =>
      if r.salted_hash == gh (password.getD "") r.salt then
        [Ev.send 200 (RespBody.auth (signinToken r) r.account_id)]
      else
        [Ev.send 400 (RespBody.message mismatchMsg)]
    | _ => [Ev.send 500 (RespBody.message serverErrorMsg)]

/-- The `/change_password` handler chain.  When the stored hash differs from
the recomputed hash the route first sends the `\x7baccessToken, id\x7d`
success body and only then dispatches the UPDATE — whose new `salted_hash`
value is `storedSaltedHash`, the value already stored. -/
def changePasswordRun (gh : String → String → String) (db : DB)
    (email password : Option String) : DB × List Ev :=
  if !(isValidEmail email && isValidPassword password) then
    (db, [Ev.send 400 (RespBody.message missingMsg)])
  else
    match db.joinRows (email.getD "") with
    | [] => (db, [Ev.send 404 (RespBody.message userNotFoundMsg)])
    | [r] =>
      if !(r.salted_hash == gh (password.getD "") r.salt) then
        (db.updateCredential r.account_id r.salted_hash,
          [Ev.send 200 (RespBody.auth (signinToken r) r.account_id),
           Ev.updateCredential r.account_id r.salted_hash])
      else
        (db, [Ev.send 400 (RespBody.message didMatchMsg)])
    | _ => (db, [Ev.send 500 (RespBody.message serverErrorMsg)])

/-! ### Concrete fixtures used by witnesses and counterexamples -/

/-- A concrete stand-in for `generateHash` used to instantiate witnesses:
append the salt to the password. -/
def gh0 : String → String → String := fun p s => p ++ s

/-- A one-account database whose credential matches password `Abcdef1!`
under `gh0` with salt `SALT`. -/
def db0 : DB :=
  { accounts :=
      [{ account_id := 1, firstname := "A", lastname := "B",
         username := "ab1", email := "ab1@x.com", phone := "1234567890",
         account_role := "3" }]
    credentials := [{ account_id := 1, salted_hash := "Abcdef1!SALT", salt := "SALT" }]
    nextId := 2 }

/-- The empty database. -/
def dbEmpty : DB := { accounts := [], credentials := [], nextId := 1 }

/-- A fully valid registration body carrying no `id` field. -/
def regBody0 : RegisterBody :=
  { firstname := some "A", lastname := some "B", username := some "ab1",
    email := some "ab1@x.com", phone := some "1234567890",
    password := some "Abcdef1!", role := some "3", id := none }

/-- The database produced by registering `regBody0` against `dbEmpty` with
salt `S` under `gh0`. -/
def dbAfterReg : DB :=
  { accounts :=
      [{ account_id := 1, firstname := "A", lastname := "B",
         username := "ab1", email := "ab1@x.com", phone := "1234567890",
         account_role := "3" }]
    credentials := [{ account_id := 1, salted_hash := "Abcdef1!S", salt := "S" }]
    nextId := 2 }

/-- A database holding two credential rows for the account of `db0`,
violating the one-to-one pairing invariant. -/
def db2 : DB :=
  { db0 with credentials := db0.credentials ++
      [{ account_id := 1, salted_hash := "other", salt := "SALT" }] }

/-- The join row produced by `db0` for its single account. -/
def row0 : JoinRow :=
  { salted_hash := "Abcdef1!SALT", salt := "SALT", account_id := 1,
    email := "ab1@x.com", firstname := "A", lastname := "B",
    phone := "1234567890", username := "ab1", account_role := "3" }

example : loginRun gh0 db0 (some "ab1@x.com") (some "Abcdef1!") =
    [Ev.send 200 (RespBody.auth
      { name := some "A", role := some "3", id := some 1 } 1)] := by decide

example : loginRun gh0 db0 (some "ab1@x.com") (some "Wrong123!") =
    [Ev.send 400 (RespBody.message mismatchMsg)] := by decide

example : loginRun gh0 db0 (some "zz@x.com") (some "Abcdef1!") =
    [Ev.send 404 (RespBody.message userNotFoundMsg)] := by decide

example : changePasswordRun gh0 db0 (some "ab1@x.com") (some "NewPass1!") =
    (db0, [Ev.send 200 (RespBody.auth
        { name := some "A", role := some "3", id := some 1 } 1),
      Ev.updateCredential 1 "Abcdef1!SALT"]) := by decide

example : changePasswordRun gh0 db0 (some "ab1@x.com") (some "Abcdef1!") =
    (db0, [Ev.send 400 (RespBody.message didMatchMsg)]) := by decide

example : registerRun gh0 "S" false dbEmpty regBody0 =
    (dbAfterReg,
     [Ev.insertAccount 1, Ev.insertCredential 1 "Abcdef1!S" "S",
      Ev.send 201 (RespBody.registered
        (Token.mk none (some "3") (some 1))
        (UserObj.mk none (some "A") (some "ab1@x.com") (some "3")))]) := by
  decide

example : registerRun gh0 "S" true dbEmpty regBody0 =
    ({ accounts := [], credentials := [], nextId := 2 },
     [Ev.insertAccount 1, Ev.deleteAccount 1,
      Ev.send 500 (RespBody.message serverErrorMsg),
      Ev.send 200 (RespBody.message (deletedMsg 1))]) := by decide

example : registerRun gh0 "S" false db0 regBody0 =
    (db0, [Ev.send 400 (RespBody.message usernameExistsMsg)]) := by decide

example : registerRun gh0 "S" false db0
    { regBody0 with username := some "other" } =
    (db0, [Ev.send 400 (RespBody.message emailExistsMsg)]) := by decide

example : registerRun gh0 "S" false db0
    { regBody0 with username := some "other", email := some "o@x.com" } =
    (db0, [Ev.send 500 (RespBody.message serverErrorMsg)]) := by decide

example : registerRun gh0 "S" false dbEmpty
    { regBody0 with password := some "short1!" } =
    (dbEmpty, [Ev.send 400 (RespBody.message passwordMsg)]) := by decide

example : isValidPassword (some "Abcdef1!") = true := by decide
example : isValidPassword (some "Abcdefg1") = false := by decide
example : isValidRole (some "3") = true := by decide
example : isValidRole (some "6") = false := by decide
example : isValidRole (some "03") = true := by decide

/-! ### Helper lemmas -/

/-- When every validation middleware passes, `/register` reduces to its
storage stage. -/
theorem registerRun_eq_store (gh : String → String → String) (saltv : String)
    (f : Bool) (db : DB) (b : RegisterBody) (hv : registerValid b = true) :
    registerRun gh saltv f db b = registerStore gh saltv f db b := by
  unfold registerValid at hv
  simp only [Bool.and_eq_true] at hv
  obtain ⟨⟨⟨⟨h1, h2⟩, h3⟩, h4⟩, h5⟩ := hv
  simp [registerRun, h1, h3, h4, h5, h2.1.1, h2.1.2, h2.2]

/-! ### Claims -/

/-- C8: the registration password check accepts a value exactly when it is a
provided non-empty string of length greater than 7 that contains at least one
digit and at least one character of the special-character set; a password
failing the check is rejected by the password middleware with the 400
password message, before any storage stage runs. -/
theorem password_validation_characterisation (p : Option String)
    (gh : String → String → String) (saltv : String) (f : Bool)
    (db : DB) (b : RegisterBody) :
    (isValidPassword p = true ↔
      ∃ s, p = some s ∧ s ≠ "" ∧ 7 < s.length ∧
        (∃ c ∈ s.data, c.isDigit = true) ∧ (∃ c ∈ s.data, c ∈ specialChars)) ∧
    (b.password = p → isValidPassword p = false →
      isValidEmail b.email = true →
      (isStringProvided b.firstname && isStringProvided b.lastname &&
        isStringProvided b.username) = true →
      isValidPhone b.phone = true →
      registerRun gh saltv f db b =
        (db, [Ev.send 400 (RespBody.message passwordMsg)])) := by
  constructor
  · cases p with
    | none => simp [isValidPassword, isStringProvided]
    | some s =>
      simp [isValidPassword, isStringProvided, hasNumber, hasSpecialChar,
        List.any_eq_true, and_assoc]
  · intro hbp hfp h1 h2 h3
    subst hbp
    simp only [registerRun, h1, h2, h3, hfp, Bool.not_true, Bool.not_false,
      Bool.false_eq_true, if_false, if_true]

/-- C8 witness: a too-short password is rejected with the 400 password
message and an unchanged database. -/
theorem password_validation_characterisation_witness :
    registerRun gh0 "S" false db0 { regBody0 with password := some "a1!" } =
      (db0, [Ev.send 400 (RespBody.message passwordMsg)]) :=
  (password_validation_characterisation (some "a1!") gh0 "S" false db0
    { regBody0 with password := some "a1!" }).2 rfl (by decide) (by decide)
    (by decide) (by decide)

/-- C9: the registration role check accepts a value exactly when it parses to
an integer between 1 and 5 (under the spec's reading of numeric values:
provided, non-empty, digits-only strings); a role failing the check is
rejected by the role middleware with the 400 role message, before any storage
stage runs. -/
theorem role_validation_characterisation (r : Option String)
    (gh : String → String → String) (saltv : String) (f : Bool)
    (db : DB) (b : RegisterBody) :
    (isValidRole r = true ↔
      ∃ s, r = some s ∧ s ≠ "" ∧ (∀ c ∈ s.data, c.isDigit = true) ∧
        1 ≤ parseIntJs s ∧ parseIntJs s ≤ 5) ∧
    (b.role = r → isValidRole r = false →
      isValidEmail b.email = true →
      (isStringProvided b.firstname && isStringProvided b.lastname &&
        isStringProvided b.username) = true →
      isValidPhone b.phone = true →
      isValidPassword b.password = true →
      registerRun gh saltv f db b =
        (db, [Ev.send 400 (RespBody.message roleMsg)])) := by
  constructor
  · cases r with
    | none => simp [isValidRole, isNumberProvided]
    | some s =>
      simp [isValidRole, isNumberProvided, List.all_eq_true, and_assoc]
  · intro hbr hfr h1 h2 h3 h4
    subst hbr
    simp only [registerRun, h1, h2, h3, h4, hfr, Bool.not_true, Bool.not_false,
      Bool.false_eq_true, if_false, if_true]

/-- C9 witness: role `7` is rejected with the 400 role message and an
unchanged database. -/
theorem role_validation_characterisation_witness :
    registerRun gh0 "S" false db0 { regBody0 with role := some "7" } =
      (db0, [Ev.send 400 (RespBody.message roleMsg)]) :=
  (role_validation_characterisation (some "7") gh0 "S" false db0
    { regBody0 with role := some "7" }).2 rfl (by decide) (by decide)
    (by decide) (by decide) (by decide)

/-- C10: a `/register` request failing any field validation is answered with
the 400 message of the first failing middleware, the database is unchanged,
and the trace contains no query: validation failures never reach storage. -/
theorem register_validation_short_circuits (gh : String → String → String)
    (saltv : String) (f : Bool) (db : DB) (b : RegisterBody)
    (h : registerValid b = false) :
    registerRun gh saltv f db b =
      (db, [Ev.send 400 (RespBody.message (firstFailureMsg b))]) ∧
    ∀ e ∈ (registerRun gh saltv f db b).2, e.isQuery = false := by
  have main : registerRun gh saltv f db b =
      (db, [Ev.send 400 (RespBody.message (firstFailureMsg b))]) := by
    unfold registerValid at h
    unfold registerRun firstFailureMsg
    cases hE : isValidEmail b.email with
    | false => simp [hE]
    | true =>
      cases hN : (isStringProvided b.firstname && isStringProvided b.lastname &&
          isStringProvided b.username) with
      | false => simp [hE, hN]
      | true =>
        cases hP : isValidPhone b.phone with
        | false => simp [hE, hN, hP]
        | true =>
          cases hW : isValidPassword b.password with
          | false => simp [hE, hN, hP, hW]
          | true =>
            cases hR : isValidRole b.role with
            | false => simp [hE, hN, hP, hW, hR]
            | true => rw [hE, hN, hP, hW, hR] at h; simp at h
  refine ⟨main, ?_⟩
  rw [main]
  intro e he
  simp only [List.mem_singleton] at he
  subst he
  rfl

/-- C10 witness: an email without `@` is rejected with the 400 email message,
an unchanged database, and a query-free trace. -/
theorem register_validation_short_circuits_witness :
    registerRun gh0 "S" false db0 { regBody0 with email := some "noatsign" } =
      (db0, [Ev.send 400 (RespBody.message emailMsg)]) := by
  have h := (register_validation_short_circuits gh0 "S" false db0
    { regBody0 with email := some "noatsign" } (by decide)).1
  have h2 : firstFailureMsg { regBody0 with email := some "noatsign" } = emailMsg := by
    decide
  rw [h2] at h
  exact h

/-- C7: a `/register` request whose Account insert hits the username
uniqueness constraint is answered 400 "Username exists"; one hitting the
email uniqueness constraint is answered 400 "Email exists"; neither failure
is reported as the generic 500 server error, and the database is unchanged. -/
theorem register_duplicate_messages (gh : String → String → String)
    (saltv : String) (f : Bool) (db : DB) (b : RegisterBody)
    (hv : registerValid b = true) :
    (db.accounts.any (fun a => a.username == b.username.getD "") = true →
      registerRun gh saltv f db b =
        (db, [Ev.send 400 (RespBody.message usernameExistsMsg)])) ∧
    (db.accounts.any (fun a => a.username == b.username.getD "") = false →
     db.accounts.any (fun a => a.email == b.email.getD "") = true →
      registerRun gh saltv f db b =
        (db, [Ev.send 400 (RespBody.message emailExistsMsg)])) := by
  rw [registerRun_eq_store gh saltv f db b hv]
  constructor
  · intro hu
    simp [registerStore, hu]
  · intro hu he
    simp [registerStore, hu, he]

/-- C7 witness: registering `regBody0` against a database already holding its
username answers 400 "Username exists"; with a fresh username but the same
email, 400 "Email exists". -/
theorem register_duplicate_messages_witness :
    registerRun gh0 "S" false db0 regBody0 =
      (db0, [Ev.send 400 (RespBody.message usernameExistsMsg)]) ∧
    registerRun gh0 "S" false db0 { regBody0 with username := some "other" } =
      (db0, [Ev.send 400 (RespBody.message emailExistsMsg)]) :=
  ⟨(register_duplicate_messages gh0 "S" false db0 regBody0 (by decide)).1
      (by decide),
   (register_duplicate_messages gh0 "S" false db0
      { regBody0 with username := some "other" } (by decide)).2
      (by decide) (by decide)⟩

/-- C2: on `/change_password` with exactly one matching Account+Credential
pair, the code signs and returns an access token precisely when the hash
recomputed from the supplied password and the stored salt differs from the
stored salted hash, and answers 400 "Credentials did match, no new password
was created" when it matches — the inverse of the claimed behaviour. -/
theorem change_password_inversion :
    gh0 "NewPass1!" "SALT" ≠ "Abcdef1!SALT" ∧
    changePasswordRun gh0 db0 (some "ab1@x.com") (some "NewPass1!") =
      (db0,
       [Ev.send 200 (RespBody.auth (Token.mk (some "A") (some "3") (some 1)) 1),
        Ev.updateCredential 1 "Abcdef1!SALT"]) ∧
    gh0 "Abcdef1!" "SALT" = "Abcdef1!SALT" ∧
    changePasswordRun gh0 db0 (some "ab1@x.com") (some "Abcdef1!") =
      (db0, [Ev.send 400 (RespBody.message didMatchMsg)]) := by decide

/-- C5: `/change_password` emits its 200 success response carrying the signed
token before the UPDATE is dispatched (the send precedes the update event in
the trace), while `/register` emits its 201 only after both inserts. -/
theorem change_password_success_before_write :
    (changePasswordRun gh0 db0 (some "ab1@x.com") (some "NewPass1!")).2 =
      [Ev.send 200 (RespBody.auth (Token.mk (some "A") (some "3") (some 1)) 1),
       Ev.updateCredential 1 "Abcdef1!SALT"] ∧
    (registerRun gh0 "S" false dbEmpty regBody0).2 =
      [Ev.insertAccount 1, Ev.insertCredential 1 "Abcdef1!S" "S",
       Ev.send 201 (RespBody.registered (Token.mk none (some "3") (some 1))
         (UserObj.mk none (some "A") (some "ab1@x.com") (some "3")))] := by
  decide

/-- C6: the 201 body of a successful registration carries the insert-returned
account id (here 1) in the access token's claims, but the `user` object's
`id` field is `request.body.id`, which a registration request does not carry:
`user.id` is absent rather than the new account id. -/
theorem register_user_id_bug :
    registerRun gh0 "S" false dbEmpty regBody0 =
      (dbAfterReg,
       [Ev.insertAccount 1, Ev.insertCredential 1 "Abcdef1!S" "S",
        Ev.send 201 (RespBody.registered (Token.mk none (some "3") (some 1))
          (UserObj.mk none (some "A") (some "ab1@x.com") (some "3")))]) ∧
    regBody0.id = none ∧
    (registerToken regBody0 dbEmpty.nextId).id = some dbEmpty.nextId ∧
    (registerUser regBody0).id = none := by decide

/-- C3: with a validly shaped email and password, `/login` answers exactly by
row count and hash comparison: no matching row gives 404 "User not found";
more than one row gives the 500 server error; exactly one row whose stored
hash equals the hash recomputed from the supplied password and stored salt
gives the 200 body carrying the access token and the account id; exactly one
row otherwise gives 400 "Credentials did not match". -/
theorem login_outcomes (gh : String → String → String) (db : DB)
    (email password : Option String)
    (hv : isValidEmail email = true) (hp : isValidPassword password = true) :
    (db.joinRows (email.getD "") = [] →
      loginRun gh db email password =
        [Ev.send 404 (RespBody.message userNotFoundMsg)]) ∧
    (∀ r s t, db.joinRows (email.getD "") = r :: s :: t →
      loginRun gh db email password =
        [Ev.send 500 (RespBody.message serverErrorMsg)]) ∧
    (∀ r, db.joinRows (email.getD "") = [r] →
      r.salted_hash = gh (password.getD "") r.salt →
      loginRun gh db email password =
        [Ev.send 200 (RespBody.auth (signinToken r) r.account_id)]) ∧
    (∀ r, db.joinRows (email.getD "") = [r] →
      r.salted_hash ≠ gh (password.getD "") r.salt →
      loginRun gh db email password =
        [Ev.send 400 (RespBody.message mismatchMsg)]) := by
  refine ⟨?_, ?_, ?_, ?_⟩
  · intro h
    simp [loginRun, hv, hp, h]
  · intro r s t h
    simp [loginRun, hv, hp, h]
  · intro r h hm
    simp [loginRun, hv, hp, h, hm]
  · intro r h hne
    simp [loginRun, hv, hp, h, beq_eq_false_iff_ne.mpr hne]

/-- C3 witness: the four login outcomes at concrete inputs — unknown email,
duplicated credential rows, matching password, mismatching password. -/
theorem login_outcomes_witness :
    loginRun gh0 db0 (some "zz@x.com") (some "Abcdef1!") =
      [Ev.send 404 (RespBody.message userNotFoundMsg)] ∧
    loginRun gh0 db2 (some "ab1@x.com") (some "Abcdef1!") =
      [Ev.send 500 (RespBody.message serverErrorMsg)] ∧
    loginRun gh0 db0 (some "ab1@x.com") (some "Abcdef1!") =
      [Ev.send 200 (RespBody.auth
        (Token.mk (some "A") (some "3") (some 1)) 1)] ∧
    loginRun gh0 db0 (some "ab1@x.com") (some "Wrong123!") =
      [Ev.send 400 (RespBody.message mismatchMsg)] := by
  refine ⟨?_, ?_, ?_, ?_⟩
  · exact (login_outcomes gh0 db0 (some "zz@x.com") (some "Abcdef1!")
      (by decide) (by decide)).1 (by decide)
  · exact (login_outcomes gh0 db2 (some "ab1@x.com") (some "Abcdef1!")
      (by decide) (by decide)).2.1 row0 { row0 with salted_hash := "other" } []
      (by decide)
  · exact (login_outcomes gh0 db0 (some "ab1@x.com") (some "Abcdef1!")
      (by decide) (by decide)).2.2.1 row0 (by decide) (by decide)
  · exact (login_outcomes gh0 db0 (some "ab1@x.com") (some "Wrong123!")
      (by decide) (by decide)).2.2.2 row0 (by decide) (by decide)

/-- Mapping a function that fixes every element of a list is the identity. -/
theorem list_map_id_of_mem {α : Type} {l : List α} {f : α → α}
    (h : ∀ x ∈ l, f x = x) : l.map f = l := by
  induction l with
  | nil => rfl
  | cons a t ih =>
    simp only [List.map_cons, List.cons.injEq]
    exact ⟨h a (List.mem_cons_self a t), ih fun x hx => h x (List.mem_cons_of_mem a hx)⟩

/-- When the join for `e` returns exactly one row, every credential row
bearing that row's account id already stores that row's hash. -/
theorem credential_unique_of_single_join (db : DB) (e : String) (r : JoinRow)
    (h1 : db.joinRows e = [r]) :
    ∀ c ∈ db.credentials, c.account_id = r.account_id →
      c.salted_hash = r.salted_hash := by
  have hr : r ∈ db.joinRows e := by rw [h1]; exact List.mem_singleton.mpr rfl
  rw [DB.joinRows, List.mem_flatMap] at hr
  obtain ⟨c0, hc0, hr0⟩ := hr
  rw [List.mem_map] at hr0
  obtain ⟨a0, ha0, hmk⟩ := hr0
  rw [List.mem_filter] at ha0
  obtain ⟨ha0m, ha0f⟩ := ha0
  simp only [Bool.and_eq_true, beq_iff_eq] at ha0f
  intro c hc hcid
  have hacc : r.account_id = c0.account_id := by rw [← hmk]; rfl
  have hmem : joinRow c a0 ∈ db.joinRows e := by
    rw [DB.joinRows, List.mem_flatMap]
    refine ⟨c, hc, List.mem_map.mpr ⟨a0, List.mem_filter.mpr ⟨ha0m, ?_⟩, rfl⟩⟩
    simp only [Bool.and_eq_true, beq_iff_eq]
    exact ⟨by rw [ha0f.1, ← hacc, hcid], ha0f.2⟩
  rw [h1, List.mem_singleton] at hmem
  rw [← hmem]
  rfl

/-- Writing a join row's own hash back into its account's credential rows
leaves the credential table unchanged. -/
theorem updateCredential_frame (db : DB) (e : String) (r : JoinRow)
    (h1 : db.joinRows e = [r]) :
    (db.updateCredential r.account_id r.salted_hash).credentials =
      db.credentials := by
  show db.credentials.map _ = db.credentials
  apply list_map_id_of_mem
  intro c hc
  by_cases hid : c.account_id = r.account_id
  · have hsh := credential_unique_of_single_join db e r h1 c hc hid
    rw [if_pos (beq_iff_eq.mpr hid), ← hsh]
  · simp [hid]

/-- C4: a `/change_password` request reaching the update step (one join row,
differing hash) dispatches an UPDATE carrying the previously stored
`salted_hash` value, and the credential table after the run equals the one
before: the stored credential is unchanged and the new password's hash is not
persisted. -/
theorem change_password_frame (gh : String → String → String) (db : DB)
    (email password : Option String) (r : JoinRow)
    (hv : isValidEmail email = true) (hp : isValidPassword password = true)
    (h1 : db.joinRows (email.getD "") = [r])
    (hne : r.salted_hash ≠ gh (password.getD "") r.salt) :
    changePasswordRun gh db email password =
      (db.updateCredential r.account_id r.salted_hash,
       [Ev.send 200 (RespBody.auth (signinToken r) r.account_id),
        Ev.updateCredential r.account_id r.salted_hash]) ∧
    (changePasswordRun gh db email password).1.credentials =
      db.credentials := by
  have hrun : changePasswordRun gh db email password =
      (db.updateCredential r.account_id r.salted_hash,
       [Ev.send 200 (RespBody.auth (signinToken r) r.account_id),
        Ev.updateCredential r.account_id r.salted_hash]) := by
    simp [changePasswordRun, hv, hp, h1, beq_eq_false_iff_ne.mpr hne]
  refine ⟨hrun, ?_⟩
  rw [hrun]
  exact updateCredential_frame db (email.getD "") r h1

/-- C4 witness: changing the password of `db0`'s account to a different one
leaves its credential table unchanged, and the UPDATE event carries the old
stored hash. -/
theorem change_password_frame_witness :
    changePasswordRun gh0 db0 (some "ab1@x.com") (some "NewPass1!") =
      (db0.updateCredential 1 "Abcdef1!SALT",
       [Ev.send 200 (RespBody.auth (Token.mk (some "A") (some "3") (some 1)) 1),
        Ev.updateCredential 1 "Abcdef1!SALT"]) ∧
    (changePasswordRun gh0 db0 (some "ab1@x.com") (some "NewPass1!")).1.credentials =
      db0.credentials :=
  change_password_frame gh0 db0 (some "ab1@x.com") (some "NewPass1!") row0
    (by decide) (by decide) (by decide) (by decide)

/-- C1: with valid input, no duplicate, and a failing Credential insert,
`/register` dispatches the compensating delete of the new Account row ahead
of the 500 failure response, and the final database equals the initial one
(with the SERIAL advanced): no Account without a Credential survives.
Moreover, for either value of the fault flag, the Account-has-Credential
invariant is preserved, and the observed response has a 2xx status only when
it is the 201 response and both the new Account and the new Credential rows
exist in the final database. -/
theorem register_compensation (gh : String → String → String) (saltv : String)
    (db : DB) (b : RegisterBody)
    (hv : registerValid b = true)
    (hu : db.accounts.any (fun a => a.username == b.username.getD "") = false)
    (he : db.accounts.any (fun a => a.email == b.email.getD "") = false)
    (hp : db.accounts.any (fun a => a.phone == b.phone.getD "") = false)
    (hid : ∀ a ∈ db.accounts, a.account_id < db.nextId) :
    registerRun gh saltv true db b =
      ({ accounts := db.accounts, credentials := db.credentials,
         nextId := db.nextId + 1 },
       [Ev.insertAccount db.nextId, Ev.deleteAccount db.nextId,
        Ev.send 500 (RespBody.message serverErrorMsg),
        Ev.send 200 (RespBody.message (deletedMsg db.nextId))]) ∧
    (∀ f, (∀ a ∈ db.accounts, ∃ c ∈ db.credentials, c.account_id = a.account_id) →
      ∀ a ∈ (registerRun gh saltv f db b).1.accounts,
        ∃ c ∈ (registerRun gh saltv f db b).1.credentials,
          c.account_id = a.account_id) ∧
    (∀ f st bb, observed (registerRun gh saltv f db b).2 = some (st, bb) →
      200 ≤ st → st < 300 →
      st = 201 ∧
      (∃ a ∈ (registerRun gh saltv f db b).1.accounts,
        a.account_id = db.nextId) ∧
      (∃ c ∈ (registerRun gh saltv f db b).1.credentials,
        c.account_id = db.nextId)) := by
  have hfilter1 : db.accounts.filter (fun a => a.account_id == db.nextId) = [] := by
    rw [List.filter_eq_nil_iff]
    intro a ha
    simp [Nat.ne_of_lt (hid a ha)]
  have hfilter2 : db.accounts.filter (fun a => !(a.account_id == db.nextId)) =
      db.accounts := by
    rw [List.filter_eq_self]
    intro a ha
    simp [Nat.ne_of_lt (hid a ha)]
  have hT : registerRun gh saltv true db b =
      ({ accounts := db.accounts, credentials := db.credentials,
         nextId := db.nextId + 1 },
       [Ev.insertAccount db.nextId, Ev.deleteAccount db.nextId,
        Ev.send 500 (RespBody.message serverErrorMsg),
        Ev.send 200 (RespBody.message (deletedMsg db.nextId))]) := by
    rw [registerRun_eq_store gh saltv true db b hv]
    simp [registerStore, hu, he, hp, DB.insertAccount, DB.deleteAccount,
      List.filter_append, hfilter1, hfilter2]
  have hF : registerRun gh saltv false db b =
      ({ accounts := db.accounts ++
           [{ account_id := db.nextId
              firstname := b.firstname.getD ""
              lastname := b.lastname.getD ""
              username := b.username.getD ""
              email := b.email.getD ""
              phone := b.phone.getD ""
              account_role := b.role.getD "" }]
         credentials := db.credentials ++
           [{ account_id := db.nextId
              salted_hash := gh (b.password.getD "") saltv
              salt := saltv }]
         nextId := db.nextId + 1 },
       [Ev.insertAccount db.nextId,
        Ev.insertCredential db.nextId (gh (b.password.getD "") saltv) saltv,
        Ev.send 201 (RespBody.registered (registerToken b db.nextId)
          (registerUser b))]) := by
    rw [registerRun_eq_store gh saltv false db b hv]
    simp [registerStore, hu, he, hp, DB.insertAccount, DB.insertCredential]
  refine ⟨hT, ?_, ?_⟩
  · intro f hinv a ha
    cases f with
    | true =>
      rw [hT] at ha ⊢
      exact hinv a ha
    | false =>
      rw [hF] at ha ⊢
      simp only [List.mem_append, List.mem_singleton] at ha
      cases ha with
      | inl ha =>
        obtain ⟨c, hc, hcid⟩ := hinv a ha
        exact ⟨c, List.mem_append_left _ hc, hcid⟩
      | inr ha =>
        refine ⟨{ account_id := db.nextId
                  salted_hash := gh (b.password.getD "") saltv
                  salt := saltv }, ?_, ?_⟩
        · simp
        · rw [ha]
  · intro f st bb hobs h2 h3
    cases f with
    | true =>
      rw [hT] at hobs
      simp only [observed] at hobs
      obtain ⟨hst, _⟩ := Prod.mk.injEq _ _ _ _ ▸ Option.some.injEq _ _ ▸ hobs
      omega
    | false =>
      rw [hF] at hobs ⊢
      simp only [observed] at hobs
      have hst : st = 201 := by
        have := (Option.some.inj hobs)
        exact (Prod.mk.injEq _ _ _ _ ▸ this).1.symm
      refine ⟨hst, ?_, ?_⟩
      · refine ⟨{ account_id := db.nextId
                  firstname := b.firstname.getD ""
                  lastname := b.lastname.getD ""
                  username := b.username.getD ""
                  email := b.email.getD ""
                  phone := b.phone.getD ""
                  account_role := b.role.getD "" }, ?_, rfl⟩
        simp
      · refine ⟨{ account_id := db.nextId
                  salted_hash := gh (b.password.getD "") saltv
                  salt := saltv }, ?_, rfl⟩
        simp

/-- C1 witness: registering against the empty database with a failing
Credential insert restores the empty table state and reports the 500 after
the delete; the observed-success conjuncts applied at the fault-free run. -/
theorem register_compensation_witness :
    registerRun gh0 "S" true dbEmpty regBody0 =
      ({ accounts := [], credentials := [], nextId := 2 },
       [Ev.insertAccount 1, Ev.deleteAccount 1,
        Ev.send 500 (RespBody.message serverErrorMsg),
        Ev.send 200 (RespBody.message (deletedMsg 1))]) := by
  have h := (register_compensation gh0 "S" dbEmpty regBody0 (by decide)
    (by decide) (by decide) (by decide) (by simp [dbEmpty])).1
  exact h

end BackEnd
